import Mathlib

/-!
Verification of the ClinicHub queue dashboard controller, the
`Clinic Queue System` section of `src/static/js/home/home.js`.

The embedding models the controller's globals (`doctors`,
`filteredDoctors`, `currentDepartment`, the search input's value) as an
explicit state record, the functions `loadDoctors`, `filterDoctors`,
`renderDoctors`, `createDoctorCard` and `callNextPatient` as pure Lean
functions, and the outcome of each `fetch` as an explicit
`FetchOutcome` value.  JavaScript strings are Lean strings; absent JS
object fields are `Option`; truthiness of a JS string is the test
against the empty string.
-/

namespace ClinicHub

/-- The `currentPatient` object of a queue entry.  Every field may be
absent in the JSON, hence `Option`.  `caseKind` embeds the JS field
named `case` (a reserved word in Lean). -/
structure CurrentPatient where
  number : Option String
  name : Option String
  caseKind : Option String
  time : Option String
deriving DecidableEq, Repr

/-- One element of the `queues` array returned by the queue-listing
endpoint, as consumed by `filterDoctors` and `createDoctorCard`.
`waiting` is the ordered waiting list (only its length is rendered) and
`avgTime` the average-wait value; both may be absent. -/
structure DoctorQueueEntry where
  doctor_id : String
  doctor_name : String
  doctor_specialty : String
  department : String
  status : String
  currentPatient : Option CurrentPatient
  waiting : Option (List String)
  avgTime : Option Nat
deriving DecidableEq, Repr

/-- The filter state of the dashboard: the global `currentDepartment`
together with the search input's current value. -/
structure FilterState where
  currentDepartment : String
  searchText : String
deriving DecidableEq, Repr

/-- JS `String.prototype.toLowerCase()` on the character list of a
string. -/
def jsToLower (s : String) : String :=
  String.mk (s.data.map Char.toLower)

/-- JS `hay.includes(pat)`: `pat` occurs as a contiguous substring of
`hay`. -/
def jsIncludes (hay pat : String) : Bool :=
  decide (pat.data <:+: hay.data)

/-- The predicate of `filterDoctors` (home.js lines 274-287): the
department matches when `currentDepartment` is `all` or equals the
entry's department, and the search matches when the lowercased search
term is empty (JS falsiness of a string) or the lowercased name or
specialty includes it. -/
def matchesFilter (F : FilterState) (doctor : DoctorQueueEntry) : Bool :=
  let searchTerm := jsToLower F.searchText
  let matchesDepartment :=
    F.currentDepartment == "all" || doctor.department == F.currentDepartment
  let matchesSearch :=
    searchTerm == "" ||
    jsIncludes (jsToLower doctor.doctor_name) searchTerm ||
    jsIncludes (jsToLower doctor.doctor_specialty) searchTerm
  matchesDepartment && matchesSearch

/-- The list `filteredDoctors` computed by `filterDoctors` from the
snapshot `doctors` and the current filter state. -/
def filterDoctors (doctors : List DoctorQueueEntry) (F : FilterState) :
    List DoctorQueueEntry :=
  doctors.filter (matchesFilter F)

/-- Case-insensitive containment, as the specification words it: the
lowercased needle occurs inside the lowercased haystack. -/
def containsCaseInsensitive (hay needle : String) : Prop :=
  (jsToLower needle).data <:+: (jsToLower hay).data

/-- The specification's matching rule, stated from the spec's words: an
entry matches when (department is `all` OR the entry's department
equals the selected one) AND (the search text is empty OR the entry's
name or specialty contains it case-insensitively). -/
def specMatches (F : FilterState) (d : DoctorQueueEntry) : Prop :=
  (F.currentDepartment = "all" ∨ d.department = F.currentDepartment) ∧
  (F.searchText = "" ∨
    containsCaseInsensitive d.doctor_name F.searchText ∨
    containsCaseInsensitive d.doctor_specialty F.searchText)

instance (F : FilterState) (d : DoctorQueueEntry) :
    Decidable (specMatches F d) := by
  unfold specMatches containsCaseInsensitive
  infer_instance

theorem jsToLower_eq_empty_iff (s : String) : jsToLower s = "" ↔ s = "" := by
  cases s with
  | mk data =>
      simp [jsToLower, String.ext_iff]

theorem matchesFilter_eq_true_iff (F : FilterState) (d : DoctorQueueEntry) :
    matchesFilter F d = true ↔ specMatches F d := by
  simp [matchesFilter, specMatches, containsCaseInsensitive, jsIncludes,
    Bool.or_eq_true, Bool.and_eq_true, beq_iff_eq, jsToLower_eq_empty_iff,
    or_assoc]

/-- Claim C1: for every snapshot `S` and filter state `F`, the filtered
list that `filterDoctors` renders is exactly the sublist of `S` whose
entries satisfy the spec's matching rule (department is `all` or equal,
and search text empty or contained case-insensitively in the name or
specialty), in the original relative order of `S`. -/
theorem filterDoctors_exact (S : List DoctorQueueEntry) (F : FilterState) :
    filterDoctors S F = S.filter (fun d => decide (specMatches F d)) ∧
    List.Sublist (filterDoctors S F) S ∧
    ∀ d : DoctorQueueEntry,
      d ∈ filterDoctors S F ↔ d ∈ S ∧ specMatches F d := by
  refine ⟨?_, List.filter_sublist S, ?_⟩
  · apply List.filter_congr
    intro d _
    by_cases hp : specMatches F d
    · simp [hp, (matchesFilter_eq_true_iff F d).mpr hp]
    · have hf : matchesFilter F d = false := by
        cases h : matchesFilter F d
        · rfl
        · exact absurd ((matchesFilter_eq_true_iff F d).mp h) hp
      simp [hp, hf]
  · intro d
    simp [filterDoctors, List.mem_filter, matchesFilter_eq_true_iff]

/-- The status switch of `createDoctorCard` (home.js lines 317-334): a
pair of CSS class and display label, defaulting to the `available` pair
for any unrecognized status string. -/
def doctorStatusView (status : String) : String × String :=
  if status = "available" then (("status-available"), ("Available"))
  else if status = "in-session" then (("status-in-session"), ("In Session"))
  else if status = "on-break" then (("status-on-break"), ("On Break"))
  else (("status-available"), ("Available"))

/-- The property names every JS plain object inherits from
`Object.prototype` (per the ECMAScript standard): reading one of these
keys on an object literal yields a truthy inherited value (a built-in
function, or the prototype object itself for `__proto__`), not
`undefined`. -/
def objectProtoKeys : List String :=
  [("constructor"), ("hasOwnProperty"), ("isPrototypeOf"),
   ("propertyIsEnumerable"), ("toLocaleString"), ("toString"),
   ("valueOf"), ("__defineGetter__"), ("__defineSetter__"),
   ("__lookupGetter__"), ("__lookupSetter__"), ("__proto__")]

/-- The value produced by reading a property of a JS object literal:
one of the object's own values, a truthy value inherited from
`Object.prototype`, or `undefined`. -/
inductive PropValue where
  | label (s : String)
  | inherited (key : String)
  | undef
deriving DecidableEq, Repr

/-- The `medicalCases` lookup object (home.js lines 201-205) under JS
property-access semantics: the three own keys map to their labels, a
key naming an `Object.prototype` member yields the truthy inherited
value, and every other key yields `undefined`. -/
def medicalCases (c : String) : PropValue :=
  if c = "normal" then PropValue.label ("Regular Checkup")
  else if c = "urgent" then PropValue.label ("Urgent Case")
  else if c = "followup" then PropValue.label ("Follow-up Visit")
  else if c ∈ objectProtoKeys then PropValue.inherited c
  else PropValue.undef

/-- String conversion of a value inherited from `Object.prototype`, as
a template literal produces it: the prototype object itself converts
to `[object Object]` and the built-in methods to the engine's source
text of a native function.  The exact method text is engine-dependent;
no theorem below depends on it, only on its being neither empty nor
the text `undefined`. -/
def jsStringifyInherited (key : String) : String :=
  if key = "__proto__" then "[object Object]"
  else ("function ") ++ key ++ ("() \x7b [native code] \x7d")

/-- JS template-literal interpolation of the value read from the
lookup object: `undefined` interpolates as the literal text
`undefined`, an own label as itself, and an inherited value as its
string conversion. -/
def jsInterp : PropValue → String
  | PropValue.label s => s
  | PropValue.inherited key => jsStringifyInherited key
  | PropValue.undef => "undefined"

/-- The rendered case label of the current patient, from the template
expression of home.js line 359: the ternary tests the truthiness of the
`case` field (absent or empty string is falsy and yields the empty
label), and a truthy value interpolates the property read
`medicalCases[case]`. -/
def caseLabel (caseField : Option String) : String :=
  match caseField with
  | none => ""
  | some c => if c = "" then "" else jsInterp (medicalCases c)

/-- JS `x || ''` applied to an optional string field. -/
def jsOrEmptyString (v : Option String) : String :=
  v.getD ""

/-- The patient area of a card: either the populated patient display or
the `No current patient` placeholder block. -/
inductive PatientView where
  | display (number : String) (name : String) (caseLbl : String)
      (time : String)
  | noCurrentPatient
deriving DecidableEq, Repr

/-- The observable content of one rendered doctor card, as produced by
`createDoctorCard`: identity and department data attributes, the status
class and label, the patient area, the two waiting-info numbers, and
whether the call-next click handler was attached. -/
structure DoctorCard where
  id : String
  department : String
  statusCssName : String
  statusText : String
  patient : PatientView
  waitingCount : Nat
  avgWaitTime : Nat
  hasCallAction : Bool
deriving DecidableEq, Repr

/-- `createDoctorCard` (home.js lines 310-388) as a pure function to a
card descriptor.  The waiting count is the length of `waiting` when
present and `0` otherwise; `avgTime || 0` defaults to `0`; and the
call-next handler is attached exactly when `currentPatient` is
present. -/
def createDoctorCard (doctor : DoctorQueueEntry) : DoctorCard where
  id := doctor.doctor_id
  department := doctor.department
  statusCssName := (doctorStatusView doctor.status).1
  statusText := (doctorStatusView doctor.status).2
  patient :=
    match doctor.currentPatient with
    | some p =>
        PatientView.display (jsOrEmptyString p.number)
          (jsOrEmptyString p.name) (caseLabel p.caseKind)
          (jsOrEmptyString p.time)
    | none => PatientView.noCurrentPatient
  waitingCount :=
    match doctor.waiting with
    | some w => w.length
    | none => 0
  avgWaitTime := doctor.avgTime.getD 0
  hasCallAction := doctor.currentPatient.isSome

/-- The queue container's content after `renderDoctors` (home.js lines
290-307): the `No Doctors Found` empty state when the filtered list is
empty, otherwise one card per filtered entry, in order. -/
inductive QueueView where
  | emptyStateView
  | cards (cs : List DoctorCard)
deriving DecidableEq, Repr

/-- `renderDoctors` as a pure function of the filtered list. -/
def renderDoctors (filteredDoctors : List DoctorQueueEntry) : QueueView :=
  if filteredDoctors.isEmpty then QueueView.emptyStateView
  else QueueView.cards (filteredDoctors.map createDoctorCard)

/-- A transient notice produced by `showNotification` (title and
message; it auto-dismisses after five seconds, which the embedding does
not track). -/
structure Notice where
  title : String
  message : String
deriving DecidableEq, Repr

/-- The controller's mutable globals: the snapshot `doctors`, the
derived list `filteredDoctors`, the selected department, and the search
input's value. -/
structure ClinicState where
  doctors : List DoctorQueueEntry
  filteredDoctors : List DoctorQueueEntry
  currentDepartment : String
  searchText : String
deriving DecidableEq, Repr

/-- The filter state carried by a controller state. -/
def filterOf (s : ClinicState) : FilterState where
  currentDepartment := s.currentDepartment
  searchText := s.searchText

/-- The state change performed by a call to `filterDoctors`:
`filteredDoctors` is recomputed from the snapshot and the current
filter (the subsequent `renderDoctors` reads only `filteredDoctors`). -/
def filterDoctorsStep (s : ClinicState) : ClinicState :=
  { s with filteredDoctors := filterDoctors s.doctors (filterOf s) }

/-- The outcome of one `fetch` as observed by the calling code:
rejection of the promise (network error), a response with `ok` false
(non-2xx), a body that `response.json()` fails to parse, or a decoded
JSON body of type `α`. -/
inductive FetchOutcome (α : Type) where
  | networkError
  | httpError
  | jsonError
  | ok (body : α)
deriving DecidableEq, Repr

/-- Whether the outcome takes the catch branch of the surrounding
`try` (fetch rejected, non-2xx status, or JSON parse failure). -/
def isCaughtFailure {α : Type} : FetchOutcome α → Bool
  | FetchOutcome.networkError => true
  | FetchOutcome.httpError => true
  | FetchOutcome.jsonError => true
  | FetchOutcome.ok _ => false

/-- The result of one `loadDoctors` execution: the controller state it
leaves behind, the notices it shows and the number of `console.error`
diagnostics it emits. -/
structure LoadResult where
  state : ClinicState
  notices : List Notice
  consoleErrors : Nat
deriving DecidableEq, Repr

/-- The notice shown by the catch branch of `loadDoctors`. -/
def loadFailureNotice : Notice where
  title := "System Error"
  message := "Failed to load queue data. Using cached data."

/-- `loadDoctors` (home.js lines 220-245).  The decoded body is
`some queues` when the JSON object has a truthy `queues` field and
`none` when that field is absent; in the latter case the guard
`if (data.queues)` skips the whole update silently.  Any caught
failure leaves the state untouched, logs one diagnostic and shows one
notice. -/
def loadDoctors (s : ClinicState)
    (r : FetchOutcome (Option (List DoctorQueueEntry))) : LoadResult :=
  match r with
  | FetchOutcome.ok (some queues) =>
      { state := filterDoctorsStep { s with doctors := queues }
        notices := []
        consoleErrors := 0 }
  | FetchOutcome.ok none =>
      { state := s, notices := [], consoleErrors := 0 }
  | FetchOutcome.networkError | FetchOutcome.httpError
  | FetchOutcome.jsonError =>
      { state := s
        notices := [loadFailureNotice]
        consoleErrors := 1 }

/-- The result of one `callNextPatient` execution.  The function never
touches the controller state itself; `refreshesTriggered` counts the
out-of-band `loadDoctors()` invocations it starts. -/
structure CallResult where
  state : ClinicState
  notices : List Notice
  consoleErrors : Nat
  refreshesTriggered : Nat
deriving DecidableEq, Repr

/-- The notice shown by the catch branch of `callNextPatient`. -/
def callFailureNotice : Notice where
  title := "System Error"
  message := "Failed to call next patient"

/-- The notice shown by `callNextPatient` on success. -/
def patientCalledNotice (doctorId : String) : Notice where
  title := "Patient Called"
  message := "Next patient called for doctor " ++ doctorId

/-- `callNextPatient` (home.js lines 391-416).  The decoded body is the
boolean `success` field.  On `success` true it shows one notice and
triggers one refresh; on `success` false the guard `if (data.success)`
does nothing at all; a caught failure shows the error notice and logs
one diagnostic.  No branch mutates the local state. -/
def callNextPatient (s : ClinicState) (doctorId : String)
    (r : FetchOutcome Bool) : CallResult :=
  match r with
  | FetchOutcome.ok true =>
      { state := s
        notices := [patientCalledNotice doctorId]
        consoleErrors := 0
        refreshesTriggered := 1 }
  | FetchOutcome.ok false =>
      { state := s, notices := [], consoleErrors := 0
        refreshesTriggered := 0 }
  | FetchOutcome.networkError | FetchOutcome.httpError
  | FetchOutcome.jsonError =>
      { state := s
        notices := [callFailureNotice]
        consoleErrors := 1
        refreshesTriggered := 0 }

/-- One observable controller operation: a completed refresh with its
fetch outcome, a click on a department view control, an edit of the
search input, or a completed call-next command with its outcome.  A
refresh triggered by a successful call-next appears in a trace as its
own subsequent `refresh` event. -/
inductive QueueEvent where
  | refresh (r : FetchOutcome (Option (List DoctorQueueEntry)))
  | viewControlClick (department : String)
  | searchInputChange (text : String)
  | callNext (doctorId : String) (r : FetchOutcome Bool)
deriving DecidableEq, Repr

/-- The controller state after one event, following the handlers wired
by `setupEventListeners` (home.js lines 248-271) and the two async
functions. -/
def step (s : ClinicState) : QueueEvent → ClinicState
  | QueueEvent.refresh r => (loadDoctors s r).state
  | QueueEvent.viewControlClick dep =>
      filterDoctorsStep { s with currentDepartment := dep }
  | QueueEvent.searchInputChange txt =>
      filterDoctorsStep { s with searchText := txt }
  | QueueEvent.callNext doctorId r => (callNextPatient s doctorId r).state

/-- The observable side effects of one event: notices shown, console
diagnostics, network fetches performed by the handler itself, and
extra refreshes triggered. -/
structure StepEffects where
  notices : List Notice
  consoleErrors : Nat
  fetches : Nat
  refreshesTriggered : Nat
deriving DecidableEq, Repr

/-- The side effects of each event: a refresh or a call-next performs
exactly its own fetch, while the two filter handlers perform none. -/
def stepEffects (s : ClinicState) : QueueEvent → StepEffects
  | QueueEvent.refresh r =>
      { notices := (loadDoctors s r).notices
        consoleErrors := (loadDoctors s r).consoleErrors
        fetches := 1
        refreshesTriggered := 0 }
  | QueueEvent.viewControlClick _ =>
      { notices := [], consoleErrors := 0, fetches := 0
        refreshesTriggered := 0 }
  | QueueEvent.searchInputChange _ =>
      { notices := [], consoleErrors := 0, fetches := 0
        refreshesTriggered := 0 }
  | QueueEvent.callNext doctorId r =>
      { notices := (callNextPatient s doctorId r).notices
        consoleErrors := (callNextPatient s doctorId r).consoleErrors
        fetches := 1
        refreshesTriggered := (callNextPatient s doctorId r).refreshesTriggered }

/-- The controller's initial globals: empty snapshot, empty filtered
list, department `all`, empty search input (home.js lines 187-189). -/
def initState : ClinicState where
  doctors := []
  filteredDoctors := []
  currentDepartment := "all"
  searchText := ""

/-- The controller state reached by a trace of events from startup. -/
def run (events : List QueueEvent) : ClinicState :=
  events.foldl step initState

/-- The snapshot carried forward by one event: only a refresh that
decodes a `queues` payload replaces it. -/
def snapshotUpd (acc : List DoctorQueueEntry) : QueueEvent →
    List DoctorQueueEntry
  | QueueEvent.refresh (FetchOutcome.ok (some queues)) => queues
  | _ => acc

/-- The most recently successfully fetched snapshot of a trace (empty
before the first successful refresh). -/
def lastSnapshot (events : List QueueEvent) : List DoctorQueueEntry :=
  events.foldl snapshotUpd []

/-- The projection invariant: the rendered list is the pure filter
projection of the snapshot under the current filter state. -/
def projInvariant (s : ClinicState) : Prop :=
  s.filteredDoctors = filterDoctors s.doctors (filterOf s)

theorem step_doctors (s : ClinicState) (e : QueueEvent) :
    (step s e).doctors = snapshotUpd s.doctors e := by
  cases e with
  | refresh r =>
      cases r with
      | networkError => rfl
      | httpError => rfl
      | jsonError => rfl
      | ok o => cases o <;> rfl
  | viewControlClick dep => rfl
  | searchInputChange txt => rfl
  | callNext doctorId r =>
      cases r with
      | networkError => rfl
      | httpError => rfl
      | jsonError => rfl
      | ok b => cases b <;> rfl

theorem step_projInvariant (s : ClinicState) (e : QueueEvent)
    (h : projInvariant s) : projInvariant (step s e) := by
  cases e with
  | refresh r =>
      cases r with
      | networkError => exact h
      | httpError => exact h
      | jsonError => exact h
      | ok o =>
          cases o with
          | none => exact h
          | some queues => rfl
  | viewControlClick dep => rfl
  | searchInputChange txt => rfl
  | callNext doctorId r =>
      cases r with
      | networkError => exact h
      | httpError => exact h
      | jsonError => exact h
      | ok b => cases b <;> exact h

theorem run_aux (events : List QueueEvent) :
    ∀ s : ClinicState, projInvariant s →
      projInvariant (events.foldl step s) ∧
      (events.foldl step s).doctors = events.foldl snapshotUpd s.doctors := by
  induction events with
  | nil => exact fun s h => ⟨h, rfl⟩
  | cons e rest ih =>
      intro s h
      have h1 := step_projInvariant s e h
      have h2 := ih (step s e) h1
      refine ⟨h2.1, ?_⟩
      simp only [List.foldl_cons]
      rw [h2.2, step_doctors]

/-- Claim C2: after every trace of controller operations (successful
refreshes, failed refreshes, filter changes, call-next commands) from
startup, the rendered list — and hence the rendered view — is exactly
the pure filter projection of the most recently successfully fetched
snapshot under the current filter state; no other state influences the
rendering. -/
theorem rendered_view_is_projection (events : List QueueEvent) :
    (run events).doctors = lastSnapshot events ∧
    (run events).filteredDoctors =
      filterDoctors (lastSnapshot events) (filterOf (run events)) ∧
    renderDoctors (run events).filteredDoctors =
      renderDoctors
        (filterDoctors (lastSnapshot events) (filterOf (run events))) := by
  have h := run_aux events initState rfl
  have hd : (run events).doctors = lastSnapshot events := h.2
  have hp : (run events).filteredDoctors =
      filterDoctors (lastSnapshot events) (filterOf (run events)) := by
    rw [← hd]
    exact h.1
  exact ⟨hd, hp, congrArg renderDoctors hp⟩

/-- A concrete doctor entry used to instantiate the theorems. -/
def sampleDoctor : DoctorQueueEntry where
  doctor_id := "42"
  doctor_name := "Dr. Lee"
  doctor_specialty := "Cardiology"
  department := "cardiology"
  status := "available"
  currentPatient := some
    { number := some ("7"), name := some ("Alice")
      caseKind := some ("urgent"), time := some ("10:30") }
  waiting := some ([("p1"), ("p2")])
  avgTime := some 12

/-- A concrete controller state holding `sampleDoctor`. -/
def sampleState : ClinicState where
  doctors := [sampleDoctor]
  filteredDoctors := [sampleDoctor]
  currentDepartment := "all"
  searchText := ""

/-- The doctor id used in concrete call-next instances. -/
def sampleDoctorId : String := "42"

/-- Claim C3 counterexample: a refresh whose response is 2xx with valid
JSON but without the expected `queues` shape leaves the snapshot
untouched yet produces no notice and no console diagnostic at all —
not the exactly-one notice plus diagnostic the claim asserts for every
failing refresh. -/
theorem missing_queues_shape_silently_ignored :
    (loadDoctors sampleState (FetchOutcome.ok none)).state = sampleState ∧
    (loadDoctors sampleState (FetchOutcome.ok none)).notices = [] ∧
    (loadDoctors sampleState (FetchOutcome.ok none)).notices.length ≠ 1 ∧
    (loadDoctors sampleState (FetchOutcome.ok none)).consoleErrors = 0 :=
  ⟨rfl, rfl, by decide, rfl⟩

/-- Claim C3 as amended: a refresh that fails by fetch rejection,
non-2xx status or invalid JSON leaves the whole controller state
exactly as it was and produces exactly one transient notice plus one
console diagnostic (the catch branch, so no failure escapes); a valid
JSON body missing the `queues` shape also leaves the state untouched
but produces no notice and no diagnostic. -/
theorem loadDoctors_failure_behavior (s : ClinicState)
    (r : FetchOutcome (Option (List DoctorQueueEntry)))
    (h : isCaughtFailure r = true) :
    (loadDoctors s r).state = s ∧
    (loadDoctors s r).notices = [loadFailureNotice] ∧
    (loadDoctors s r).consoleErrors = 1 ∧
    (loadDoctors s (FetchOutcome.ok none)).state = s ∧
    (loadDoctors s (FetchOutcome.ok none)).notices = [] ∧
    (loadDoctors s (FetchOutcome.ok none)).consoleErrors = 0 := by
  cases r with
  | networkError => exact ⟨rfl, rfl, rfl, rfl, rfl, rfl⟩
  | httpError => exact ⟨rfl, rfl, rfl, rfl, rfl, rfl⟩
  | jsonError => exact ⟨rfl, rfl, rfl, rfl, rfl, rfl⟩
  | ok o => simp [isCaughtFailure] at h

theorem loadDoctors_failure_behavior_witness :
    (loadDoctors sampleState FetchOutcome.networkError).state =
      sampleState ∧
    (loadDoctors sampleState FetchOutcome.networkError).notices =
      [loadFailureNotice] ∧
    (loadDoctors sampleState FetchOutcome.networkError).consoleErrors = 1 ∧
    (loadDoctors sampleState (FetchOutcome.ok none)).state = sampleState ∧
    (loadDoctors sampleState (FetchOutcome.ok none)).notices = [] ∧
    (loadDoctors sampleState (FetchOutcome.ok none)).consoleErrors = 0 :=
  loadDoctors_failure_behavior sampleState FetchOutcome.networkError rfl

/-- Claim C4 counterexample: a call-next whose response is 2xx with
`success` equal to `false` leaves the state unchanged but shows no
notice whatsoever — not the error notice the claim asserts. -/
theorem callNext_success_false_shows_no_notice :
    (callNextPatient sampleState sampleDoctorId
        (FetchOutcome.ok false)).notices = [] ∧
    (callNextPatient sampleState sampleDoctorId
        (FetchOutcome.ok false)).notices.length ≠ 1 ∧
    (callNextPatient sampleState sampleDoctorId
        (FetchOutcome.ok false)).state = sampleState :=
  ⟨rfl, by decide, rfl⟩

/-- Claim C4 as amended: a call-next that fails by fetch rejection,
non-2xx status or invalid JSON shows exactly the error notice, logs
one diagnostic, triggers no refresh and leaves the controller state —
snapshot, filter state and rendered list — unchanged; a 2xx response
with `success` false also leaves the state unchanged and triggers no
refresh, but shows no notice at all. -/
theorem callNext_failure_behavior (s : ClinicState) (doctorId : String)
    (r : FetchOutcome Bool) (h : isCaughtFailure r = true) :
    (callNextPatient s doctorId r).state = s ∧
    (callNextPatient s doctorId r).notices = [callFailureNotice] ∧
    (callNextPatient s doctorId r).consoleErrors = 1 ∧
    (callNextPatient s doctorId r).refreshesTriggered = 0 ∧
    (callNextPatient s doctorId (FetchOutcome.ok false)).state = s ∧
    (callNextPatient s doctorId (FetchOutcome.ok false)).notices = [] ∧
    (callNextPatient s doctorId
        (FetchOutcome.ok false)).refreshesTriggered = 0 := by
  cases r with
  | networkError => exact ⟨rfl, rfl, rfl, rfl, rfl, rfl, rfl⟩
  | httpError => exact ⟨rfl, rfl, rfl, rfl, rfl, rfl, rfl⟩
  | jsonError => exact ⟨rfl, rfl, rfl, rfl, rfl, rfl, rfl⟩
  | ok b => simp [isCaughtFailure] at h

theorem callNext_failure_behavior_witness :
    (callNextPatient sampleState sampleDoctorId
        FetchOutcome.networkError).state = sampleState ∧
    (callNextPatient sampleState sampleDoctorId
        FetchOutcome.networkError).notices = [callFailureNotice] ∧
    (callNextPatient sampleState sampleDoctorId
        FetchOutcome.networkError).consoleErrors = 1 ∧
    (callNextPatient sampleState sampleDoctorId
        FetchOutcome.networkError).refreshesTriggered = 0 ∧
    (callNextPatient sampleState sampleDoctorId
        (FetchOutcome.ok false)).state = sampleState ∧
    (callNextPatient sampleState sampleDoctorId
        (FetchOutcome.ok false)).notices = [] ∧
    (callNextPatient sampleState sampleDoctorId
        (FetchOutcome.ok false)).refreshesTriggered = 0 :=
  callNext_failure_behavior sampleState sampleDoctorId
    FetchOutcome.networkError rfl

/-- Claim C5: a call-next that succeeds (2xx with `success` true)
shows exactly one confirmation notice, triggers exactly one immediate
refresh beyond the timer-driven ones, and leaves the local controller
state — in particular the snapshot — completely unchanged until that
refresh completes (no optimistic update). -/
theorem callNext_success_behavior (s : ClinicState) (doctorId : String) :
    (callNextPatient s doctorId (FetchOutcome.ok true)).state = s ∧
    (callNextPatient s doctorId (FetchOutcome.ok true)).notices =
      [patientCalledNotice doctorId] ∧
    (callNextPatient s doctorId (FetchOutcome.ok true)).notices.length = 1 ∧
    (callNextPatient s doctorId
        (FetchOutcome.ok true)).refreshesTriggered = 1 :=
  ⟨rfl, rfl, rfl, rfl⟩

/-- Claim C9: a department click or a search edit re-renders
immediately from the snapshot already in memory — the new filtered
list is the pure projection of the unchanged snapshot under the new
filter state — and performs no network fetch. -/
theorem setFilter_rerenders_without_fetch (s : ClinicState)
    (dep txt : String) :
    (step s (QueueEvent.viewControlClick dep)).doctors = s.doctors ∧
    (step s (QueueEvent.viewControlClick dep)).filteredDoctors =
      filterDoctors s.doctors
        { currentDepartment := dep, searchText := s.searchText } ∧
    (stepEffects s (QueueEvent.viewControlClick dep)).fetches = 0 ∧
    (stepEffects s (QueueEvent.viewControlClick dep)).notices = [] ∧
    (step s (QueueEvent.searchInputChange txt)).doctors = s.doctors ∧
    (step s (QueueEvent.searchInputChange txt)).filteredDoctors =
      filterDoctors s.doctors
        { currentDepartment := s.currentDepartment, searchText := txt } ∧
    (stepEffects s (QueueEvent.searchInputChange txt)).fetches = 0 ∧
    (stepEffects s (QueueEvent.searchInputChange txt)).notices = [] :=
  ⟨rfl, rfl, rfl, rfl, rfl, rfl, rfl, rfl⟩

/-- A concrete doctor entry whose current patient carries a case kind
outside the closed set of `medicalCases`. -/
def unknownCaseDoctor : DoctorQueueEntry where
  doctor_id := "7"
  doctor_name := "Dr. Adams"
  doctor_specialty := "Cardiology"
  department := "cardiology"
  status := "available"
  currentPatient := some
    { number := some ("3"), name := some ("Omar")
      caseKind := some ("emergency"), time := some ("09:15") }
  waiting := some []
  avgTime := some 5

/-- Claim C6 counterexample: a current patient with the unrecognized
case kind `emergency` renders the literal text `undefined` as its case
label (JS interpolates the `undefined` result of the failed
`medicalCases` lookup), not the empty string the claim asserts. -/
theorem unknown_caseKind_renders_undefined_text :
    (createDoctorCard unknownCaseDoctor).patient =
      PatientView.display ("3") ("Omar") ("undefined") ("09:15") ∧
    ("undefined" : String) ≠ "" :=
  ⟨rfl, by decide⟩

/-- Claim C6 as amended: a current patient whose case kind is a
non-empty string that is neither one of the closed set
`{normal, urgent, followup}` nor the name of a property inherited from
`Object.prototype` — so that the property read `medicalCases[case]`
really yields `undefined` — renders the literal text `undefined` as
its case label, while an absent (or empty-string) case kind renders
the empty label.  (A case kind naming an inherited property, such as
`toString`, instead renders the string conversion of the inherited
value.) -/
theorem caseLabel_unrecognized (d : DoctorQueueEntry) (p : CurrentPatient)
    (c : String) (hp : d.currentPatient = some p) (hc : p.caseKind = some c)
    (hne : c ≠ "") (h1 : c ≠ "normal") (h2 : c ≠ "urgent")
    (h3 : c ≠ "followup") (h4 : c ∉ objectProtoKeys) :
    (createDoctorCard d).patient =
      PatientView.display (jsOrEmptyString p.number) (jsOrEmptyString p.name)
        ("undefined") (jsOrEmptyString p.time) ∧
    caseLabel (some c) = "undefined" ∧
    caseLabel none = "" := by
  have hm : medicalCases c = PropValue.undef := by
    simp [medicalCases, h1, h2, h3, h4]
  refine ⟨?_, ?_, rfl⟩
  · simp [createDoctorCard, hp, caseLabel, hc, hne, hm, jsInterp]
  · simp [caseLabel, hne, hm, jsInterp]

theorem caseLabel_unrecognized_witness :
    (createDoctorCard unknownCaseDoctor).patient =
      PatientView.display (jsOrEmptyString (some ("3")))
        (jsOrEmptyString (some ("Omar"))) ("undefined")
        (jsOrEmptyString (some ("09:15"))) ∧
    caseLabel (some ("emergency")) = "undefined" ∧
    caseLabel none = "" :=
  caseLabel_unrecognized unknownCaseDoctor
    { number := some ("3"), name := some ("Omar")
      caseKind := some ("emergency"), time := some ("09:15") }
    ("emergency") rfl rfl (by decide) (by decide) (by decide) (by decide)
      (by decide)

/-- An inherited `Object.prototype` key such as `toString` does not
render as `undefined` and not as the empty label either: the property
read yields the truthy inherited method, whose string conversion is
interpolated. -/
theorem caseLabel_inherited_key_not_undefined :
    caseLabel (some ("toString")) = jsStringifyInherited ("toString") ∧
    caseLabel (some ("toString")) ≠ "undefined" ∧
    caseLabel (some ("toString")) ≠ "" ∧
    caseLabel (some ("__proto__")) = "[object Object]" :=
  ⟨rfl, by decide, by decide, rfl⟩

/-- A concrete doctor entry with an unrecognized status, no current
patient and no waiting list. -/
def busyDoctor : DoctorQueueEntry where
  doctor_id := "9"
  doctor_name := "Dr. Munir"
  doctor_specialty := "Neurology"
  department := "neurology"
  status := "busy"
  currentPatient := none
  waiting := none
  avgTime := none

/-- Claim C7: an entry whose status is none of `available`,
`in-session`, `on-break` renders with the same status pair as
`available`: label `Available` and class `status-available`. -/
theorem unknown_status_defaults_to_available (d : DoctorQueueEntry)
    (h1 : d.status ≠ "available") (h2 : d.status ≠ "in-session")
    (h3 : d.status ≠ "on-break") :
    (createDoctorCard d).statusText = "Available" ∧
    (createDoctorCard d).statusCssName = "status-available" ∧
    doctorStatusView d.status = doctorStatusView ("available") := by
  simp [createDoctorCard, doctorStatusView, h1, h2, h3]

theorem unknown_status_defaults_to_available_witness :
    (createDoctorCard busyDoctor).statusText = "Available" ∧
    (createDoctorCard busyDoctor).statusCssName = "status-available" ∧
    doctorStatusView busyDoctor.status = doctorStatusView ("available") :=
  unknown_status_defaults_to_available busyDoctor (by decide) (by decide)
    (by decide)

/-- Claim C10: the call-next click handler is attached to a rendered
card exactly when the entry has a current patient, so a card for a
doctor with no current patient exposes no way to issue the call-next
command. -/
theorem call_action_only_with_currentPatient (d : DoctorQueueEntry) :
    (createDoctorCard d).hasCallAction = d.currentPatient.isSome ∧
    ((createDoctorCard d).hasCallAction = false ↔
      d.currentPatient = none) := by
  refine ⟨rfl, ?_⟩
  cases h : d.currentPatient <;> simp [createDoctorCard, h]

end ClinicHub
